import Mathlib

/-!
Verification of the flight detection/servo capture loop
(`flight_scripts/flight_detection_servo.py`).

Shallow embedding conventions:
* wall-clock times, contour areas and image moments are rational numbers
  (the Python code works with floats; all claims are about exact
  comparisons and quotients, which we model over `ℚ`);
* a contour is abstracted by the attributes the code queries on it:
  `cv2.contourArea` (field `area`) and the moments `m00`, `m10`, `m01`
  returned by `cv2.moments`;
* Python `int()` applied to a nonnegative float quotient is modelled by
  truncating integer division of the exact rational quotient (`pyTrunc`);
* effectful steps of the main loop (servo commands, image writes, log
  appends) are modelled as pure functions returning the emitted effects
  together with the updated loop state.
-/

namespace FlightDetection

/-- Embeds `MIN_AREA = 10000` (flight_detection_servo.py line 18). -/
def MIN_AREA : ℚ := 10000

/-- Embeds `MAX_AREA = 22000` (line 19). -/
def MAX_AREA : ℚ := 22000

/-- Embeds `OPEN_ANGLE = 90` (line 27). -/
def OPEN_ANGLE : ℚ := 90

/-- Embeds `CLOSE_ANGLE = 0` (line 28). -/
def CLOSE_ANGLE : ℚ := 0

/-- Embeds `OPEN_TIME = 2`, the release hold in seconds (line 29). -/
def OPEN_TIME : ℚ := 2

/-- A contour as seen by the detection code: the attributes `cv2.contourArea`
and `cv2.moments` report for it. -/
structure Contour where
  area : ℚ
  m00 : ℚ
  m10 : ℚ
  m01 : ℚ
deriving DecidableEq, Repr

/-- A contour qualifies when its area lies within `[MIN_AREA, MAX_AREA]`
(the area test on line 126). -/
def qualifies (c : Contour) : Prop :=
  MIN_AREA ≤ c.area ∧ c.area ≤ MAX_AREA

instance (c : Contour) : Decidable (qualifies c) := by
  unfold qualifies; infer_instance

/-- One step of the running-maximum scan of `detect_color` (lines 124-128):
`if MIN_AREA <= area <= MAX_AREA and area > max_area: max_area, best = area, cnt`. -/
def selectStep (acc : ℚ × Option Contour) (c : Contour) : ℚ × Option Contour :=
  if MIN_AREA ≤ c.area ∧ c.area ≤ MAX_AREA ∧ acc.1 < c.area then (c.area, some c) else acc

/-- The running-maximum scan over all contours, started from
`max_area = 0, best_cnt = None` (lines 122-128); returns the final
`(max_area, best_cnt)` pair. -/
def selectBlob (contours : List Contour) : ℚ × Option Contour :=
  List.foldl selectStep (0, none) contours

/-- Python `int()` applied to an exact rational quotient: truncation toward
zero (`int(M[m10] / M[m00])` on lines 135-136). -/
def pyTrunc (q : ℚ) : ℤ :=
  Int.tdiv q.num q.den

/-- The detection record returned by `detect_color`: centroid pixel
coordinates and the winning area (`return (cx, cy, max_area)`, line 144). -/
structure DetectionResult where
  cx : ℤ
  cy : ℤ
  area : ℚ
deriving DecidableEq, Repr

/-- Embeds `detect_color` (lines 110-146) restricted to its decision logic:
the contours of the thresholded mask are the input, and the function returns
`None` or the `(cx, cy, max_area)` triple.  The centroid divisions happen
only under the `M[m00] != 0` guard (line 134). -/
def detect_color (contours : List Contour) : Option DetectionResult :=
  match (selectBlob contours).2 with
  | none => none
  | some c =>
      if c.m00 ≠ 0 then
        some ⟨pyTrunc (c.m10 / c.m00), pyTrunc (c.m01 / c.m00), (selectBlob contours).1⟩
      else
        none

/-- Embeds the per-tick servo decision (lines 218-225), for an initialized
servo.  Input: whether a detection was found, the current time and
`last_servo_move`; output: the commanded angle (if any command is issued
this tick) and the updated `last_servo_move`. -/
def servoStep (detection_found : Bool) (current_time last_servo_move : ℚ) :
    Option ℚ × ℚ :=
  if detection_found then (some OPEN_ANGLE, current_time)
  else if OPEN_TIME ≤ current_time - last_servo_move then (some CLOSE_ANGLE, last_servo_move)
  else (none, last_servo_move)

/-- One CSV row of `capture_log.csv` (header on line 176, rows written on
lines 239-243; the blank CSV cells of a no-detection row are `none`). -/
structure LogRow where
  filepath : String
  detection_found : Bool
  center_x : Option ℤ
  center_y : Option ℤ
  area : Option ℚ
  servo_moved : Bool
deriving DecidableEq, Repr

/-- Builds the log row written on lines 239-243: detection rows carry the
centroid, area and `servo_moved = True`; no-detection rows leave those
cells blank and record `servo_moved = False`. -/
def mkLogRow (filepath : String) (detection : Option DetectionResult) : LogRow :=
  match detection with
  | some r => ⟨filepath, true, some r.cx, some r.cy, some r.area, true⟩
  | none => ⟨filepath, false, none, none, none, false⟩

/-- The observable effects of one pass through the interval-gated capture
block (lines 228-245). -/
structure CaptureEffects where
  imageWritten : Bool
  logRow : Option LogRow
deriving DecidableEq, Repr

/-- Embeds the capture/log block (lines 228-245).  `encodeOk` is the success
flag of `save_image` (lines 98-108: `cv2.imencode` succeeded and the buffer
was written).  Returns the emitted effects and the new `last_capture_time`.
The structure mirrors the source exactly: the log append sits inside both
the `detections_only`-or-detected test (line 233) and the `save_image`
success test (line 234), while `last_capture_time = current_time` (line 245)
runs whenever the interval has elapsed. -/
def captureStep (detections_only : Bool) (interval last_capture_time current_time : ℚ)
    (detection : Option DetectionResult) (encodeOk : Bool) (filepath : String) :
    CaptureEffects × ℚ :=
  if interval ≤ current_time - last_capture_time then
    if !detections_only || detection.isSome then
      if encodeOk then
        (⟨true, some (mkLogRow filepath detection)⟩, current_time)
      else
        (⟨false, none⟩, current_time)
    else
      (⟨false, none⟩, current_time)
  else
    (⟨false, none⟩, last_capture_time)

/-- Embeds the frame filename construction on line 230:
`f"frame_{timestamp.strftime(...)}.jpg"`. -/
def frameFilename (ts : String) : String :=
  "frame_" ++ ts ++ ".jpg"

/-- The loop state carried between ticks (lines 186-188). -/
structure TickState where
  last_servo_move : ℚ
  last_capture_time : ℚ
deriving DecidableEq, Repr

/-- The per-tick environment: wall clock, whether `camera.read()` succeeded
(line 205), the detection result the frame would yield, whether JPEG
encoding would succeed, and the filename the tick would use. -/
structure TickInput where
  current_time : ℚ
  readOk : Bool
  detection : Option DetectionResult
  encodeOk : Bool
  filepath : String
deriving DecidableEq, Repr

/-- Everything one tick of the main loop emits. -/
structure TickOutput where
  ranDetection : Bool
  servoCmd : Option ℚ
  imageWritten : Bool
  logRow : Option LogRow
deriving DecidableEq, Repr

/-- The output of a tick abandoned by `continue` after a failed frame read
(lines 206-208): detection never runs, no command, no image, no log row. -/
def skippedTick : TickOutput :=
  ⟨false, none, false, none⟩

/-- One full tick of the main loop body (lines 204-245): a failed read
abandons the tick with the state unchanged; otherwise the servo decision
runs, then the interval-gated capture/log block. -/
def loopTick (servoInitialized detections_only : Bool) (interval : ℚ)
    (st : TickState) (inp : TickInput) : TickOutput × TickState :=
  if inp.readOk = false then
    (skippedTick, st)
  else
    let servo := if servoInitialized then
        servoStep inp.detection.isSome inp.current_time st.last_servo_move
      else
        (none, st.last_servo_move)
    let cap := captureStep detections_only interval st.last_capture_time inp.current_time
        inp.detection inp.encodeOk inp.filepath
    (⟨true, servo.1, cap.1.imageWritten, cap.1.logRow⟩, ⟨servo.2, cap.2⟩)

/-- Runs the loop body over a trace of tick inputs, threading the state and
collecting the outputs. -/
def runTicks (servoInitialized detections_only : Bool) (interval : ℚ) :
    TickState → List TickInput → List TickOutput × TickState
  | st, [] => ([], st)
  | st, inp :: rest =>
      let r := loopTick servoInitialized detections_only interval st inp
      let tail := runTicks servoInitialized detections_only interval r.2 rest
      (r.1 :: tail.1, tail.2)

/-- Embeds `total_duration = args.duration * 60` (line 152), in seconds. -/
def total_duration (durationMinutes : ℕ) : ℕ :=
  durationMinutes * 60

/-- Embeds the while-loop guard `(time.time() - start_time) < total_duration`
(line 193). -/
def loopCond (start_time : ℚ) (total : ℕ) (now : ℚ) : Bool :=
  decide (now - start_time < (total : ℚ))

/-- The backend×index product tried by `init_camera` (lines 48-52): three
backends (`CAP_ANY`, `CAP_V4L2`, `CAP_GSTREAMER`, abstracted as 0,1,2) times
`range(2)` device indices, in nested-loop order. -/
def cameraAttempts : List (ℕ × ℕ) :=
  [(0, 0), (0, 1), (1, 0), (1, 1), (2, 0), (2, 1)]

/-- Embeds `init_camera` (lines 46-77): `opens` tells whether a given
backend/index attempt yields an opened capture (an attempt that raises is
caught and treated as not opening).  The first successful attempt is
returned; if all fail, the `RuntimeError` of line 77 is raised. -/
def init_camera (opens : ℕ × ℕ → Bool) : Except String (ℕ × ℕ) :=
  match cameraAttempts.find? opens with
  | some attempt => Except.ok attempt
  | none => Except.error "No working camera found! Tried all available backends."

/-- Outcome of the initialization phase of `main` (lines 154-162). -/
inductive InitOutcome where
  | proceed (camera : ℕ × ℕ) (servoInitialized : Bool)
  | abort (exitCode : ℕ) (message : String)
deriving DecidableEq, Repr

/-- Embeds lines 154-162 of `main`: a camera-init `RuntimeError` is caught,
`Error: ...` is printed and `main` returns — the process then ends with exit
status 0.  A servo-init failure is non-fatal: the session proceeds with
`servoInitialized = false` (lines 157-159). -/
def sessionInit (opens : ℕ × ℕ → Bool) (servoOk : Bool) : InitOutcome :=
  match init_camera opens with
  | Except.ok cam => InitOutcome.proceed cam servoOk
  | Except.error msg => InitOutcome.abort 0 ("Error: " ++ msg)

/-- The observable resource events of the `finally` cleanup block
(lines 252-259). -/
inductive CleanupEvent where
  | cameraRelease
  | servoCommand (angle : ℚ)
  | gpioFree
  | gpiochipClose
deriving DecidableEq, Repr

/-- Embeds the `finally` block (lines 252-259) as the ordered list of
resource events it performs: `camera.release()` first, then — only when the
servo was initialized — `move_servo(h, CLOSE_ANGLE)`, `lgpio.gpio_free`,
`lgpio.gpiochip_close`.  The log file is opened and closed at every append
(lines 238, 175), so cleanup performs no log-file event. -/
def cleanup (servoInitialized : Bool) : List CleanupEvent :=
  CleanupEvent.cameraRelease ::
    (if servoInitialized then
      [CleanupEvent.servoCommand CLOSE_ANGLE, CleanupEvent.gpioFree, CleanupEvent.gpiochipClose]
    else [])

end FlightDetection

namespace FlightDetection

/-- A step of the running-maximum scan leaves the accumulator unchanged when
the candidate does not qualify with a strictly larger area. -/
theorem selectStep_eq_self {m : ℚ} {b : Option Contour} {x : Contour}
    (h : qualifies x → x.area ≤ m) : selectStep (m, b) x = (m, b) := by
  unfold selectStep
  split
  · rename_i hcond
    obtain ⟨h1, h2, h3⟩ := hcond
    exact absurd h3 (not_lt.mpr (h ⟨h1, h2⟩))
  · rfl

/-- A step of the running-maximum scan replaces the accumulator when the
candidate qualifies with a strictly larger area. -/
theorem selectStep_eq_new {m : ℚ} {b : Option Contour} {x : Contour}
    (hq : qualifies x) (hlt : m < x.area) : selectStep (m, b) x = (x.area, some x) := by
  unfold selectStep
  exact if_pos ⟨hq.1, hq.2, hlt⟩

/-- The scan is constant on a suffix in which no contour qualifies with area
above the accumulated maximum. -/
theorem selectStep_foldl_const (l : List Contour) (m : ℚ) (b : Option Contour)
    (h : ∀ x ∈ l, qualifies x → x.area ≤ m) :
    List.foldl selectStep (m, b) l = (m, b) := by
  induction l with
  | nil => rfl
  | cons x l ih =>
      rw [List.foldl_cons, selectStep_eq_self (h x (List.mem_cons_self x l))]
      exact ih fun y hy => h y (List.mem_cons_of_mem x hy)

/-- Invariant of the scan: any reported best contour came from the input,
qualifies, and its area is exactly the reported maximum. -/
theorem selectStep_foldl_inv (l : List Contour) :
    ∀ (m : ℚ) (b : Option Contour) (S : List Contour),
      (∀ x ∈ l, x ∈ S) →
      (∀ c₀, b = some c₀ → c₀ ∈ S ∧ qualifies c₀ ∧ c₀.area = m) →
      ∀ c, (List.foldl selectStep (m, b) l).2 = some c →
        c ∈ S ∧ qualifies c ∧ c.area = (List.foldl selectStep (m, b) l).1 := by
  induction l with
  | nil =>
      intro m b S _ hb c hc
      exact hb c hc
  | cons x l ih =>
      intro m b S hS hb c hc
      rw [List.foldl_cons] at hc ⊢
      by_cases hx : qualifies x ∧ m < x.area
      · rw [selectStep_eq_new hx.1 hx.2] at hc ⊢
        refine ih x.area (some x) S (fun y hy => hS y (List.mem_cons_of_mem x hy)) ?_ c hc
        intro c₀ h₀
        obtain rfl : x = c₀ := Option.some.inj h₀
        exact ⟨hS x (List.mem_cons_self x l), hx.1, rfl⟩
      · have hself : qualifies x → x.area ≤ m := by
          intro hqx
          by_contra hgt
          exact hx ⟨hqx, lt_of_not_le hgt⟩
        rw [selectStep_eq_self hself] at hc ⊢
        exact ih m b S (fun y hy => hS y (List.mem_cons_of_mem x hy)) hb c hc

/-- The scan selects the first contour that qualifies, strictly dominates
the qualifying contours before it, and weakly dominates those after it. -/
theorem selectStep_foldl_first (l₁ : List Contour) (c : Contour) (l₂ : List Contour) :
    ∀ (m : ℚ) (b : Option Contour), qualifies c → m < c.area →
      (∀ x ∈ l₁, qualifies x → x.area < c.area) →
      (∀ x ∈ l₂, qualifies x → x.area ≤ c.area) →
      List.foldl selectStep (m, b) (l₁ ++ c :: l₂) = (c.area, some c) := by
  induction l₁ with
  | nil =>
      intro m b hq hm _ h2
      rw [List.nil_append, List.foldl_cons, selectStep_eq_new hq hm]
      exact selectStep_foldl_const l₂ c.area (some c) h2
  | cons x l₁ ih =>
      intro m b hq hm h1 h2
      rw [List.cons_append, List.foldl_cons]
      by_cases hx : qualifies x ∧ m < x.area
      · rw [selectStep_eq_new hx.1 hx.2]
        exact ih x.area (some x) hq (h1 x (List.mem_cons_self x l₁) hx.1)
          (fun y hy => h1 y (List.mem_cons_of_mem x hy)) h2
      · have hself : qualifies x → x.area ≤ m := by
          intro hqx
          by_contra hgt
          exact hx ⟨hqx, lt_of_not_le hgt⟩
        rw [selectStep_eq_self hself]
        exact ih m b hq hm (fun y hy => h1 y (List.mem_cons_of_mem x hy)) h2

/-- When the scan yields no best contour, no detection is reported. -/
theorem detect_color_eq_none (cs : List Contour) (h : (selectBlob cs).2 = none) :
    detect_color cs = none := by
  unfold detect_color
  rw [h]

/-- When the scan yields a best contour with nonzero zeroth moment, the
detection carries the truncated centroid and the winning area. -/
theorem detect_color_eq_some (cs : List Contour) (c : Contour)
    (h : (selectBlob cs).2 = some c) (hm : c.m00 ≠ 0) :
    detect_color cs =
      some ⟨pyTrunc (c.m10 / c.m00), pyTrunc (c.m01 / c.m00), (selectBlob cs).1⟩ := by
  unfold detect_color
  rw [h]
  exact if_pos hm

/-- When the scan yields a best contour with zero zeroth moment, no
detection is reported. -/
theorem detect_color_eq_none_of_m00 (cs : List Contour) (c : Contour)
    (h : (selectBlob cs).2 = some c) (hm : c.m00 = 0) :
    detect_color cs = none := by
  unfold detect_color
  rw [h]
  exact if_neg (by simp [hm])

end FlightDetection

namespace FlightDetection

/-- Python `int()` truncation of a nonnegative rational equals its floor. -/
theorem pyTrunc_eq_floor {q : ℚ} (h : 0 ≤ q) : pyTrunc q = ⌊q⌋ := by
  unfold pyTrunc
  rw [Rat.floor_def]
  exact Int.tdiv_eq_ediv (Rat.num_nonneg.mpr h) (Int.ofNat_nonneg _)

/-- Claim C2: for every frame, a detection is reported iff the
running-maximum scan over the mask's contours yields a winner — a contour
with area in `[MIN_AREA, MAX_AREA]` that replaced the running best exactly
when strictly larger and within bounds — whose zeroth moment is nonzero;
and when the winner's zeroth moment is zero, no detection is reported even
though a geometrically qualifying contour existed. -/
theorem c2_detection_iff (cs : List Contour) :
    ((detect_color cs).isSome = true ↔
      ∃ c, c ∈ cs ∧ (selectBlob cs).2 = some c ∧ qualifies c ∧ c.m00 ≠ 0)
    ∧ (∀ c, (selectBlob cs).2 = some c → c.m00 = 0 → detect_color cs = none) := by
  have hinv : ∀ c, (selectBlob cs).2 = some c → c ∈ cs ∧ qualifies c := by
    intro c hc
    have h := selectStep_foldl_inv cs 0 none cs (fun x hx => hx)
      (fun c₀ h₀ => by cases h₀) c hc
    exact ⟨h.1, h.2.1⟩
  refine ⟨⟨?_, ?_⟩, ?_⟩
  · intro h
    cases hsel : (selectBlob cs).2 with
    | none =>
        rw [detect_color_eq_none cs hsel] at h
        simp at h
    | some c =>
        by_cases hm : c.m00 = 0
        · rw [detect_color_eq_none_of_m00 cs c hsel hm] at h
          simp at h
        · exact ⟨c, (hinv c hsel).1, rfl, (hinv c hsel).2, hm⟩
  · rintro ⟨c, -, hsel, -, hm⟩
    rw [detect_color_eq_some cs c hsel hm]
    rfl
  · intro c hsel hm
    exact detect_color_eq_none_of_m00 cs c hsel hm

/-- Witness for C2: a single qualifying contour with nonzero zeroth moment
yields a detection. -/
theorem c2_witness : (detect_color [⟨15000, 2, 4, 6⟩]).isSome = true := by
  have hq : qualifies ⟨15000, 2, 4, 6⟩ := by
    norm_num [qualifies, MIN_AREA, MAX_AREA]
  have hsel : (selectBlob [(⟨15000, 2, 4, 6⟩ : Contour)]).2 = some ⟨15000, 2, 4, 6⟩ := by
    unfold selectBlob
    rw [List.foldl_cons, selectStep_eq_new hq (by norm_num), List.foldl_nil]
  exact (c2_detection_iff [⟨15000, 2, 4, 6⟩]).1.mpr
    ⟨⟨15000, 2, 4, 6⟩, List.mem_singleton.mpr rfl, hsel, hq, show (2:ℚ) ≠ 0 by norm_num⟩

/-- Claim C8: with two or more qualifying contours of equal maximal area in
the input, blob selection deterministically returns the one enumerated
first in input order. -/
theorem c8_tie_first (l₁ l₂ l₃ : List Contour) (a b : Contour)
    (hqa : qualifies a) (hqb : qualifies b) (heq : b.area = a.area)
    (h₁ : ∀ x ∈ l₁, qualifies x → x.area < a.area)
    (h₂ : ∀ x ∈ l₂, qualifies x → x.area ≤ a.area)
    (h₃ : ∀ x ∈ l₃, qualifies x → x.area ≤ a.area) :
    (selectBlob (l₁ ++ a :: (l₂ ++ b :: l₃))).2 = some a := by
  have hpos : (0 : ℚ) < a.area :=
    lt_of_lt_of_le (show (0:ℚ) < MIN_AREA by norm_num [MIN_AREA]) hqa.1
  have hafter : ∀ x ∈ l₂ ++ b :: l₃, qualifies x → x.area ≤ a.area := by
    intro x hx hqx
    rcases List.mem_append.mp hx with h | h
    · exact h₂ x h hqx
    · rcases List.mem_cons.mp h with rfl | h
      · exact le_of_eq heq
      · exact h₃ x h hqx
  have hfold := selectStep_foldl_first l₁ a (l₂ ++ b :: l₃) 0 none hqa hpos h₁ hafter
  unfold selectBlob
  rw [hfold]

/-- Witness for C8: two equal-area qualifying contours; the first one wins. -/
theorem c8_witness :
    (selectBlob [⟨15000, 1, 1, 1⟩, ⟨15000, 2, 2, 2⟩]).2 = some ⟨15000, 1, 1, 1⟩ := by
  have hqa : qualifies ⟨15000, 1, 1, 1⟩ := by
    norm_num [qualifies, MIN_AREA, MAX_AREA]
  have hqb : qualifies ⟨15000, 2, 2, 2⟩ := by
    norm_num [qualifies, MIN_AREA, MAX_AREA]
  exact c8_tie_first [] [] [] ⟨15000, 1, 1, 1⟩ ⟨15000, 2, 2, 2⟩ hqa hqb rfl
    (fun x hx => by cases hx) (fun x hx => by cases hx) (fun x hx => by cases hx)

/-- Counterexample for C4: a detection whose exact centroid quotient is 5/3
reports pixel coordinate 1 (truncation), while rounding to nearest would
give 2. -/
theorem c4_counterexample :
    detect_color [⟨15000, 3, 5, 0⟩] = some ⟨1, 0, 15000⟩
    ∧ round ((5 : ℚ) / 3) ≠ (1 : ℤ) := by
  constructor
  · have hq : qualifies ⟨15000, 3, 5, 0⟩ := by
      norm_num [qualifies, MIN_AREA, MAX_AREA]
    have hfold : List.foldl selectStep (0, none) [(⟨15000, 3, 5, 0⟩ : Contour)]
        = (15000, some ⟨15000, 3, 5, 0⟩) := by
      rw [List.foldl_cons, selectStep_eq_new hq (by norm_num), List.foldl_nil]
    have hsel : (selectBlob [(⟨15000, 3, 5, 0⟩ : Contour)]).2 = some ⟨15000, 3, 5, 0⟩ := by
      unfold selectBlob
      rw [hfold]
    have h1 : (selectBlob [(⟨15000, 3, 5, 0⟩ : Contour)]).1 = 15000 := by
      unfold selectBlob
      rw [hfold]
    rw [detect_color_eq_some _ _ hsel (show (3:ℚ) ≠ 0 by norm_num), h1]
    have e1 : pyTrunc ((5 : ℚ) / 3) = 1 := by
      rw [pyTrunc_eq_floor (by norm_num)]
      norm_num
    have e2 : pyTrunc (0 : ℚ) = 0 := by
      rw [pyTrunc_eq_floor (by norm_num)]
      norm_num
    simp [e1, e2]
  · norm_num [round_eq]

/-- Claim C4 (amended): when a detection is reported for winning contour
`c`, its centroid equals the truncation toward zero of
`(m10/m00, m01/m00)` — which for nonnegative quotients is the floor — and
the reported area is the winner's area; the coordinates are not rounded to
the nearest integer. -/
theorem c4_centroid_trunc (cs : List Contour) (c : Contour)
    (hsel : (selectBlob cs).2 = some c) (hm : c.m00 ≠ 0) :
    detect_color cs = some ⟨pyTrunc (c.m10 / c.m00), pyTrunc (c.m01 / c.m00), c.area⟩
    ∧ ∀ q : ℚ, 0 ≤ q → pyTrunc q = ⌊q⌋ := by
  constructor
  · have harea : (selectBlob cs).1 = c.area :=
      ((selectStep_foldl_inv cs 0 none cs (fun x hx => hx)
        (fun c₀ h₀ => by cases h₀) c hsel).2.2).symm
    rw [detect_color_eq_some cs c hsel hm, harea]
  · exact fun q hq => pyTrunc_eq_floor hq

/-- Witness for C4 (amended) at a concrete qualifying contour. -/
theorem c4_witness :
    detect_color [(⟨15000, 2, 5, 7⟩ : Contour)]
      = some ⟨pyTrunc ((5 : ℚ) / 2), pyTrunc ((7 : ℚ) / 2), 15000⟩ := by
  have hq : qualifies ⟨15000, 2, 5, 7⟩ := by
    norm_num [qualifies, MIN_AREA, MAX_AREA]
  have hsel : (selectBlob [(⟨15000, 2, 5, 7⟩ : Contour)]).2 = some ⟨15000, 2, 5, 7⟩ := by
    unfold selectBlob
    rw [List.foldl_cons, selectStep_eq_new hq (by norm_num), List.foldl_nil]
  exact (c4_centroid_trunc [⟨15000, 2, 5, 7⟩] ⟨15000, 2, 5, 7⟩ hsel
    (show (2:ℚ) ≠ 0 by norm_num)).1

end FlightDetection

namespace FlightDetection

/-- Claim C3: per tick with an initialized servo — a detection commands
OPEN and resets the last-move time to now; a CLOSE command is issued
exactly when there is no detection and the release hold has elapsed since
the last move (re-issued every such tick); and in the grace window after
the last move, with no detection, no command is issued and the timer is
kept. -/
theorem c3_servo_transitions (d : Bool) (now last : ℚ) :
    (d = true → servoStep d now last = (some OPEN_ANGLE, now))
    ∧ ((servoStep d now last).1 = some CLOSE_ANGLE ↔ (d = false ∧ OPEN_TIME ≤ now - last))
    ∧ (d = false → now - last < OPEN_TIME → servoStep d now last = (none, last)) := by
  refine ⟨?_, ⟨?_, ?_⟩, ?_⟩
  · intro hd
    subst hd
    unfold servoStep
    rw [if_pos rfl]
  · intro h
    cases d with
    | true =>
        unfold servoStep at h
        rw [if_pos rfl] at h
        exact absurd (Option.some.inj h) (by norm_num [OPEN_ANGLE, CLOSE_ANGLE])
    | false =>
        unfold servoStep at h
        rw [if_neg (by simp)] at h
        by_cases hc : OPEN_TIME ≤ now - last
        · exact ⟨rfl, hc⟩
        · rw [if_neg hc] at h
          simp at h
  · rintro ⟨hd, hc⟩
    subst hd
    unfold servoStep
    rw [if_neg (by simp), if_pos hc]
  · intro hd hc
    subst hd
    unfold servoStep
    rw [if_neg (by simp), if_neg (not_le.mpr hc)]

/-- Witness for C3: a detecting tick commands the OPEN angle and resets the
timer. -/
theorem c3_witness : servoStep true 5 0 = (some OPEN_ANGLE, 5) :=
  (c3_servo_transitions true 5 0).1 rfl

/-- Counterexample for C1: an elapsed capture interval in detections-only
mode with no detection appends no log row at all (the claim asserts a row
with a blank path is appended). -/
theorem c1_counterexample :
    (1 : ℚ) ≤ 5 - 0
    ∧ (captureStep true 1 0 5 none true "frame_a.jpg").1.logRow = none := by
  constructor
  · norm_num
  · unfold captureStep
    rw [if_pos (by norm_num), if_neg (by simp)]

/-- Claim C1 (amended): at every tick at which the capture interval has
elapsed, `last_capture_time` is updated to now regardless, but a log row is
appended iff an image is saved this interval — that is, iff
(detections-only is off or a detection occurred) and JPEG encoding
succeeded; in detections-only mode with no detection, neither an image nor
a log row is produced, so the detections-only flag gates the log append
together with the image write. -/
theorem c1_log_iff_saved (detections_only : Bool) (interval last now : ℚ)
    (d : Option DetectionResult) (enc : Bool) (p : String)
    (h : interval ≤ now - last) :
    ((captureStep detections_only interval last now d enc p).1.logRow.isSome = true ↔
      ((!detections_only || d.isSome) = true ∧ enc = true))
    ∧ ((captureStep detections_only interval last now d enc p).1.logRow.isSome
        = (captureStep detections_only interval last now d enc p).1.imageWritten)
    ∧ (captureStep detections_only interval last now d enc p).2 = now := by
  unfold captureStep
  rw [if_pos h]
  by_cases hsave : (!detections_only || d.isSome) = true
  · rw [if_pos hsave]
    cases enc with
    | true =>
        rw [if_pos rfl]
        simp [hsave]
    | false =>
        rw [if_neg (by simp)]
        simp
  · rw [if_neg hsave]
    simp [hsave]

/-- Witness for C1 (amended) at a concrete elapsed-interval tick. -/
theorem c1_witness :
    ((captureStep false 1 0 2 none true "frame_b.jpg").1.logRow.isSome = true ↔
      ((!false || (none : Option DetectionResult).isSome) = true ∧ true = true))
    ∧ ((captureStep false 1 0 2 none true "frame_b.jpg").1.logRow.isSome
        = (captureStep false 1 0 2 none true "frame_b.jpg").1.imageWritten)
    ∧ (captureStep false 1 0 2 none true "frame_b.jpg").2 = 2 :=
  c1_log_iff_saved false 1 0 2 none true "frame_b.jpg" (by norm_num)

/-- The capture block produces either a saved image together with its log
row (with successful encoding), or no effects at all. -/
theorem captureStep_logRow_cases (detections_only : Bool) (interval last now : ℚ)
    (d : Option DetectionResult) (enc : Bool) (p : String) :
    ((captureStep detections_only interval last now d enc p).1
        = ⟨true, some (mkLogRow p d)⟩ ∧ enc = true)
    ∨ (captureStep detections_only interval last now d enc p).1 = ⟨false, none⟩ := by
  unfold captureStep
  split
  · split
    · split
      · rename_i henc
        exact Or.inl ⟨rfl, henc⟩
      · exact Or.inr rfl
    · exact Or.inr rfl
  · exact Or.inr rfl

/-- When encoding fails, the capture block emits nothing. -/
theorem captureStep_enc_false (detections_only : Bool) (interval last now : ℚ)
    (d : Option DetectionResult) (p : String) :
    (captureStep detections_only interval last now d false p).1 = ⟨false, none⟩ := by
  unfold captureStep
  split
  · split
    · split
      · rename_i henc
        cases henc
      · rfl
    · rfl
  · rfl

/-- Claim C10: every appended log row carries the (non-blank) path of the
image written this interval, and a row exists only when the image write
succeeded; if encoding fails, neither an image nor a log row is produced. -/
theorem c10_log_row_saved (detections_only : Bool) (interval last now : ℚ)
    (d : Option DetectionResult) (enc : Bool) (p : String) :
    (∀ row, (captureStep detections_only interval last now d enc p).1.logRow = some row →
      row.filepath = p
      ∧ (captureStep detections_only interval last now d enc p).1.imageWritten = true)
    ∧ (enc = false →
        (captureStep detections_only interval last now d enc p).1.logRow = none
        ∧ (captureStep detections_only interval last now d enc p).1.imageWritten = false)
    ∧ (∀ ts, frameFilename ts ≠ "") := by
  refine ⟨?_, ?_, ?_⟩
  · intro row hrow
    rcases captureStep_logRow_cases detections_only interval last now d enc p with
      ⟨hcap, -⟩ | hcap
    · rw [hcap] at hrow
      obtain rfl : mkLogRow p d = row := Option.some.inj hrow
      refine ⟨?_, ?_⟩
      · cases d <;> rfl
      · rw [hcap]
    · rw [hcap] at hrow
      simp at hrow
  · intro henc
    subst henc
    rw [captureStep_enc_false]
    exact ⟨rfl, rfl⟩
  · intro ts h
    have h2 := congrArg String.length h
    simp [frameFilename, String.length_append] at h2
    exact absurd h2.2 (by decide)

/-- Witness for C10: with failed encoding, no row and no image. -/
theorem c10_witness :
    (captureStep false 1 0 2 none false "x.jpg").1.logRow = none
    ∧ (captureStep false 1 0 2 none false "x.jpg").1.imageWritten = false :=
  (c10_log_row_saved false 1 0 2 none false "x.jpg").2.1 rfl

/-- Claim C7: ticks whose frame read fails are abandoned — detection never
runs, no servo command is issued, no image is written, no log row is
appended, the loop state is unchanged — and the loop keeps processing
subsequent ticks, even across several consecutive failures. -/
theorem c7_read_failure_skips (servoInitialized detections_only : Bool) (interval : ℚ)
    (inputs : List TickInput) :
    ∀ st : TickState, (∀ i ∈ inputs, i.readOk = false) →
      runTicks servoInitialized detections_only interval st inputs
        = (inputs.map fun _ => skippedTick, st) := by
  induction inputs with
  | nil =>
      intro st _
      rfl
  | cons inp rest ih =>
      intro st h
      have hinp : inp.readOk = false := h inp (List.mem_cons_self inp rest)
      have htick : loopTick servoInitialized detections_only interval st inp
          = (skippedTick, st) := by
        unfold loopTick
        rw [if_pos hinp]
      have ih' := ih st fun i hi => h i (List.mem_cons_of_mem inp hi)
      simp only [runTicks, htick, ih', List.map_cons]

/-- Witness for C7: two consecutive failed-read ticks produce no effects
and leave the state unchanged. -/
theorem c7_witness :
    runTicks true false 1 ⟨0, 0⟩
        [⟨3, false, none, true, "a.jpg"⟩, ⟨4, false, none, true, "b.jpg"⟩]
      = ([skippedTick, skippedTick], ⟨0, 0⟩) := by
  have h : ∀ i ∈ [(⟨3, false, none, true, "a.jpg"⟩ : TickInput),
      ⟨4, false, none, true, "b.jpg"⟩], i.readOk = false := by
    intro i hi
    rcases List.mem_cons.mp hi with rfl | hi
    · rfl
    · rcases List.mem_cons.mp hi with rfl | hi
      · rfl
      · cases hi
  exact c7_read_failure_skips true false 1 _ ⟨0, 0⟩ h

end FlightDetection

namespace FlightDetection

/-- Claim C9: the session loop runs a tick iff the current time is still
before `startTime + durationMinutes * 60`, and — when every iteration takes
at most one tick period — the loop's final guard evaluation happens less
than one tick period after the deadline. -/
theorem c9_session_deadline :
    (∀ (start now : ℚ) (dur : ℕ),
      loopCond start (total_duration dur) now = true
        ↔ now < start + (total_duration dur : ℚ))
    ∧ (∀ (start p : ℚ) (dur : ℕ) (t : ℕ → ℚ) (N : ℕ),
      0 < p → t 0 = start → (∀ k, t (k + 1) ≤ t k + p) →
      (∀ k, k < N → loopCond start (total_duration dur) (t k) = true) →
      loopCond start (total_duration dur) (t N) = false →
      t N < start + (total_duration dur : ℚ) + p) := by
  constructor
  · intro start now dur
    unfold loopCond
    rw [decide_eq_true_eq]
    constructor
    · intro h
      linarith
    · intro h
      linarith
  · intro start p dur t N hp h0 hstep hrun _
    cases N with
    | zero =>
        have hcast : (0 : ℚ) ≤ (total_duration dur : ℚ) := Nat.cast_nonneg _
        rw [h0]
        linarith
    | succ m =>
        have h1 : t m - start < (total_duration dur : ℚ) := by
          have h2 := hrun m (Nat.lt_succ_self m)
          unfold loopCond at h2
          exact of_decide_eq_true h2
        have h3 := hstep m
        linarith

/-- Witness for C9: a zero-duration session exits within one tick period,
and a concrete guard evaluation agrees with the deadline comparison. -/
theorem c9_witness :
    ((0 : ℚ) < 0 + (total_duration 0 : ℚ) + 1)
    ∧ (loopCond 0 (total_duration 1) 30 = true ↔ (30 : ℚ) < 0 + (total_duration 1 : ℚ)) :=
  ⟨c9_session_deadline.2 0 1 0 (fun _ => 0) 0 (by norm_num) rfl (fun _ => by norm_num)
      (fun k hk => absurd hk (Nat.not_lt_zero k))
      (by unfold loopCond total_duration
          rw [decide_eq_false_iff_not]
          norm_num),
   c9_session_deadline.1 0 30 1⟩

/-- Counterexample for C6: with every backend-and-index attempt failing,
the session aborts with the diagnostic message but exit status 0 — the
claimed non-zero-equivalent termination does not hold. -/
theorem c6_counterexample :
    ¬ (∀ code msg, sessionInit (fun _ => false) false = InitOutcome.abort code msg →
        code ≠ 0) := by
  intro h
  exact h 0 ("Error: " ++ "No working camera found! Tried all available backends.") rfl rfl

/-- Claim C6 (amended): if every backend-and-index combination fails,
opening the Frame Source fails with the camera-init error, the session
does not proceed, and the diagnostic is printed — but the process then
returns normally, ending with exit status 0 rather than a non-zero
signal. -/
theorem c6_init_failure (opens : ℕ × ℕ → Bool)
    (h : ∀ a ∈ cameraAttempts, opens a = false) :
    init_camera opens
      = Except.error "No working camera found! Tried all available backends."
    ∧ sessionInit opens false
      = InitOutcome.abort 0
          ("Error: " ++ "No working camera found! Tried all available backends.") := by
  have hfind : cameraAttempts.find? opens = none := by
    rw [List.find?_eq_none]
    intro x hx
    simp [h x hx]
  constructor
  · unfold init_camera
    rw [hfind]
  · unfold sessionInit init_camera
    rw [hfind]

/-- Witness for C6 (amended): the all-failing camera environment. -/
theorem c6_witness :
    init_camera (fun _ => false)
      = Except.error "No working camera found! Tried all available backends."
    ∧ sessionInit (fun _ => false) false
      = InitOutcome.abort 0
          ("Error: " ++ "No working camera found! Tried all available backends.") :=
  c6_init_failure (fun _ => false) (fun _ _ => rfl)

/-- Counterexample for C5: cleanup releases the Frame Source first, so the
claimed fixed order (actuator CLOSED, actuator release, Frame Source
release, log close) does not hold — the CLOSED command comes after the
camera release. -/
theorem c5_counterexample :
    cleanup true = [CleanupEvent.cameraRelease, CleanupEvent.servoCommand CLOSE_ANGLE,
      CleanupEvent.gpioFree, CleanupEvent.gpiochipClose]
    ∧ cleanup true ≠ [CleanupEvent.servoCommand CLOSE_ANGLE, CleanupEvent.gpioFree,
      CleanupEvent.gpiochipClose, CleanupEvent.cameraRelease] := by
  constructor
  · rfl
  · intro h
    simp [cleanup] at h

/-- Claim C5 (amended): cleanup runs exactly once at session end — normal
deadline expiry or interrupt — in this fixed order: release the Frame
Source, then, only when the actuator was initialized, command the actuator
CLOSED, free the GPIO pin and close the GPIO chip; the CLOSED command
precedes the release of the actuator's own resources but follows the Frame
Source release, and no log-close step exists since the log file is opened
and closed around every append. -/
theorem c5_cleanup_order :
    cleanup true = [CleanupEvent.cameraRelease, CleanupEvent.servoCommand CLOSE_ANGLE,
      CleanupEvent.gpioFree, CleanupEvent.gpiochipClose]
    ∧ cleanup false = [CleanupEvent.cameraRelease] :=
  ⟨rfl, rfl⟩

end FlightDetection
